import Mathlib

/-!
Verification development for the JWKS rotation lambda (cdk-jwks-rotation).

This file gives a shallow embedding, in Lean, of the rotation lambda's pure
logic: the JWKS builder (src/lambda/utils.ts), the environment-configuration
loader (src/lambda/utils.ts), the secret-read wrapper getSecretValue
(src/lambda/utils.ts), and the four lifecycle steps createSecret
(src/lambda/create-secret.ts), testSecret (src/lambda/test-secret.ts),
finishSecret (src/lambda/finish-secret.ts) and cleanupExpiredKeys
(src/lambda/cleanup-expired-keys.ts).

Modelling conventions:
- Timestamps are integers in milliseconds (Date.now / Date.getTime values);
  an ISO timestamp string stored in a record is modelled by the integer it
  parses to.  Elapsed-seconds quantities, which the TypeScript computes by
  dividing a millisecond difference by 1000, are modelled exactly in the
  rationals.
- JavaScript objects whose properties may be absent are modelled with Option
  fields: an absent property is none, and reading it yields none exactly as
  reading it in JavaScript yields undefined.
- The repository contains two generations of the SecretValue record shape:
  src/lambda/types.ts declares privateKeyPem/publicKeyJwk (and
  create-secret.ts writes those properties), while utils.ts reads publicJwk
  and test-secret.ts reads privateKey.  The SecretValue structure below
  therefore carries all four property names as Option fields, exactly as a
  JavaScript runtime value can carry any subset of them; each embedded
  function reads precisely the property names the corresponding source
  function reads.
- Effectful step functions are embedded as pure functions from the state
  they read (store contents, published JWKS object, generated key material,
  the clock) to a StepOutcome: the ordered list of writes they issue plus
  their result (normal return or thrown error).  Opaque cryptographic
  library calls (key-pair generation, PKCS8 import, JWT sign/verify) are out
  of scope per the specification and are represented by their observable
  inputs/outputs.
-/

namespace JwksRotation

/-- KeySpec structured configuration value (algorithm family plus
family-specific parameters), as destructured by generateJwksKeyPair in
create-secret.ts. -/
structure KeySpec where
  algorithm : String
  crv : Option String := none
  modulusLength : Option Int := none
deriving DecidableEq

/-- Public JWK as produced by the jose exportJWK call: the key type plus the
algorithm-specific public fields (for RSA the n/e members, for EC the
crv/x/y members), modelled as an association list of field names to
values. -/
structure Jwk where
  kty : String
  params : List (String × String)
deriving DecidableEq

/-- Stored secret value: the JSON object held in one secret version.  The
two property-name generations present in the repository (privateKeyPem and
publicKeyJwk from src/lambda/types.ts and create-secret.ts, privateKey and
publicJwk read by test-secret.ts and utils.ts) are all carried as Option
fields; a JavaScript object simply has whichever properties its writer set,
and reading any other name yields undefined. -/
structure SecretValue where
  privateKeyPem : Option String := none
  privateKey : Option String := none
  publicKeyJwk : Option Jwk := none
  publicJwk : Option Jwk := none
  kid : String
  alg : String
  createdAt : Int
  activatedAt : Option Int := none
deriving DecidableEq

/-- Successful non-null result of getSecretValue in utils.ts: the version
id, the optional version-stage list, and the parsed secret value. -/
structure GotSecret where
  VersionId : String
  VersionStages : Option (List String) := none
  secretValue : SecretValue
deriving DecidableEq

/-- Store contents as observed through getSecretValue: for each stage read
the steps perform, the (already unwrapped) result.  The pending field maps a
version id (the rotation token) to the result of the read by
VersionId = token together with VersionStage = AWSPENDING. -/
structure Store where
  current : Option GotSecret := none
  next : Option GotSecret := none
  previous : Option GotSecret := none
  pending : String → Option GotSecret := fun _ => none

/-- Overrides accepted by buildJwks (BuildJwksOptions in utils.ts); each
field defaults to absent like an omitted optional property. -/
structure BuildJwksOptions where
  nextSecret : Option SecretValue := none
  previousSecret : Option SecretValue := none
  currentSecret : Option SecretValue := none
deriving DecidableEq

/-- Key entry pushed into the published JWKS document by addJwk in utils.ts:
the spread of the record's publicJwk property (its kty and public
parameters, or nothing at all when the property is absent) followed by the
kid, alg and use members.  The kty field is Option because spreading an
absent publicJwk contributes no kty member. -/
structure JwkEntry where
  kty : Option String
  params : List (String × String)
  kid : String
  alg : String
  use : String
deriving DecidableEq

/-- Published JWKS document: the keys array.  A parsed document lacking a
keys member is modelled by the empty list, which the consumers treat
identically. -/
structure Jwks where
  keys : List JwkEntry
deriving DecidableEq

/-- Environment configuration record (EnvironmentConfig in utils.ts).
The three numeric fields are integers produced by parseInt. -/
structure EnvironmentConfig where
  bucketName : String
  bucketPath : String
  minActivationGracePeriodSeconds : Int
  maxTokenValidityDurationSeconds : Int
  minKeyCleanupGracePeriodSeconds : Int
  keySpec : KeySpec
deriving DecidableEq

/-- Resolution helper getJwk in buildJwks (utils.ts line 222): an explicit
override wins, otherwise the stage is read from the store and its secret
value taken. -/
def getJwk (override : Option SecretValue) (stored : Option GotSecret) :
    Option SecretValue :=
  match override with
  | some v => some v
  | none => stored.map GotSecret.secretValue

/-- addJwk in buildJwks (utils.ts line 234): pushes the spread of the
record's publicJwk property followed by kid, alg and use = "sig".  When the
record has no publicJwk property (records written by create-secret.ts store
the public key under publicKeyJwk instead) the spread contributes nothing,
so the entry carries only kid, alg and use. -/
def addJwk (v : SecretValue) : JwkEntry :=
  match v.publicJwk with
  | some j => { kty := some j.kty, params := j.params, kid := v.kid, alg := v.alg, use := "sig" }
  | none => { kty := none, params := [], kid := v.kid, alg := v.alg, use := "sig" }

/-- Elapsed seconds since the resolved current key's activation
(utils.ts lines 247 to 249): null when there is no current key or it has no
activatedAt, otherwise the millisecond difference divided by 1000. -/
def currentActivatedAgoSeconds (now : Int) (current : Option SecretValue) :
    Option ℚ :=
  match current with
  | some c =>
    match c.activatedAt with
    | some t => some (((now - t : Int) : ℚ) / 1000)
    | none => none
  | none => none

/-- Inclusion condition for the AWSPREVIOUS key (utils.ts lines 251 to 255):
the JavaScript test is a logical-not of currentActivatedAgoSeconds (true for
null and for the number 0) disjoined with the comparison against
maxTokenValidityDurationSeconds + minKeyCleanupGracePeriodSeconds. -/
def previousCondition (cfg : EnvironmentConfig) (cAAS : Option ℚ) : Bool :=
  match cAAS with
  | none => true
  | some q =>
    decide (q = 0) ||
      decide (q ≤ ((cfg.maxTokenValidityDurationSeconds +
        cfg.minKeyCleanupGracePeriodSeconds : Int) : ℚ))

/-- Segment of the built JWKS contributed by the NEXT stage
(utils.ts lines 239 to 240): included unconditionally when present. -/
def buildJwksNextKeys (store : Store) (opts : BuildJwksOptions) :
    List JwkEntry :=
  match getJwk opts.nextSecret store.next with
  | some n => [addJwk n]
  | none => []

/-- Segment of the built JWKS contributed by the AWSCURRENT stage
(utils.ts lines 242 to 243): included only when activatedAt is set. -/
def buildJwksCurrentKeys (store : Store) (opts : BuildJwksOptions) :
    List JwkEntry :=
  match getJwk opts.currentSecret store.current with
  | some c => if c.activatedAt.isSome then [addJwk c] else []
  | none => []

/-- Segment of the built JWKS contributed by the AWSPREVIOUS stage
(utils.ts lines 245 to 258): included only when its activatedAt is set and
previousCondition accepts the elapsed time since the current key's
activation. -/
def buildJwksPreviousKeys (cfg : EnvironmentConfig) (now : Int)
    (store : Store) (opts : BuildJwksOptions) : List JwkEntry :=
  match getJwk opts.previousSecret store.previous with
  | some p =>
    if p.activatedAt.isSome then
      if previousCondition cfg
          (currentActivatedAgoSeconds now (getJwk opts.currentSecret store.current)) then
        [addJwk p]
      else []
    else []
  | none => []

/-- buildJwks in utils.ts (lines 212 to 261): the keys array is assembled by
pushing the NEXT, AWSCURRENT and AWSPREVIOUS contributions in that order. -/
def buildJwks (cfg : EnvironmentConfig) (now : Int) (store : Store)
    (opts : BuildJwksOptions) : Jwks :=
  { keys := buildJwksNextKeys store opts ++ buildJwksCurrentKeys store opts ++
      buildJwksPreviousKeys cfg now store opts }

/-- Error outcomes thrown by the lambda steps.  Each constructor stands for
one thrown Error; the message function below renders the exact message
string the TypeScript builds. -/
inductive StepError where
  /-- thrown by createSecret after creating the NEXT key in the abort
  branch (create-secret.ts line 56). -/
  | createdNextAborting : StepError
  /-- thrown by createSecret when the NEXT key is younger than the minimum
  activation grace period (create-secret.ts lines 70 to 74); carries the
  interpolated age in seconds and the configured grace period. -/
  | nextKeyTooNew (ageInSeconds : ℚ) (minActivationGracePeriodSeconds : Int) : StepError
  /-- thrown by generateJwksKeyPair for an algorithm outside the RS, PS and
  ES families (create-secret.ts line 131). -/
  | unsupportedAlgorithm (algorithm : String) : StepError
  /-- thrown by finishSecret when no AWSCURRENT version exists
  (finish-secret.ts). -/
  | currentVersionNotFound : StepError
  /-- thrown by finishSecret when no AWSPENDING version with the token's
  version id exists (finish-secret.ts). -/
  | pendingVersionNotFound : StepError
  /-- thrown by testSecret when no AWSPENDING version with the token's
  version id exists (test-secret.ts). -/
  | awsPendingVersionNotFound : StepError
  /-- thrown out of testSecret by the jose importPKCS8 call when it rejects
  its pkcs8 argument; the call sits outside the try/catch around jwtVerify,
  so the error propagates unwrapped, before the JWKS document is ever
  loaded.  Carries the library error's rendering. -/
  | importKeyFailed (message : String) : StepError
  /-- thrown by testSecret when the loaded JWKS document has no keys
  (test-secret.ts). -/
  | noKeysInJwks : StepError
  /-- thrown by testSecret wrapping any verification failure raised by the
  jose jwtVerify call (test-secret.ts catch block); carries the rendering of
  the inner error. -/
  | jwtVerificationFailed (inner : String) : StepError
deriving DecidableEq

/-- Message string of each thrown Error, exactly as the TypeScript builds
it. -/
def StepError.message : StepError → String
  | .createdNextAborting => "Created NEXT key. Aborting rotation as requested."
  | .nextKeyTooNew age minGrace =>
    "Next key is too new (" ++ toString age ++ "s < " ++ toString minGrace ++
      "s). Aborting rotation."
  | .unsupportedAlgorithm a => "Unsupported algorithm: " ++ a
  | .currentVersionNotFound => "Current version not found"
  | .pendingVersionNotFound => "Pending version not found"
  | .awsPendingVersionNotFound => "AWSPENDING version not found"
  | .importKeyFailed m => m
  | .noKeysInJwks => "No keys found in JWKS document"
  | .jwtVerificationFailed inner => "JWT verification failed: " ++ inner

/-- Writes a step can issue, in program order: putSecretValue calls against
the secret store (with the client request token and the version stages of
the call), UpdateSecretVersionStage calls (with the MoveToVersionId and
RemoveFromVersionId arguments), and updateJwksFile calls against the object
store (with the document written). -/
inductive Effect where
  | putSecret (clientRequestToken : String) (versionStages : List String)
      (value : SecretValue) : Effect
  | moveStage (moveToVersionId : String) (removeFromVersionId : String) : Effect
  | putObject (document : Jwks) : Effect
deriving DecidableEq

/-- Predicate for secret-store writes among a step's effects. -/
def Effect.isStoreWrite : Effect → Bool
  | .putSecret _ _ _ => true
  | _ => false

/-- Predicate for object-store writes among a step's effects. -/
def Effect.isObjectWrite : Effect → Bool
  | .putObject _ => true
  | _ => false

/-- Predicate for secret-store writes that attach the given stage label. -/
def Effect.writesStage (stage : String) : Effect → Bool
  | .putSecret _ stages _ => stages.contains stage
  | _ => false

deriving instance DecidableEq for Except

/-- Observable outcome of one step invocation: the ordered list of writes it
issued and its result, a normal return or a thrown error. -/
structure StepOutcome where
  effects : List Effect
  result : Except StepError Unit
deriving DecidableEq

/-- Fresh key material delivered by one opaque generateKeyPair library call
together with its PEM and JWK encodings and the nanoid key identifier. -/
structure GeneratedKey where
  privateKeyPem : String
  publicKeyJwk : Jwk
  kid : String
deriving DecidableEq

/-- JavaScript String.prototype.startsWith over the character sequence: the
search string's characters are an initial segment of the receiver's.  It is
modelled on character lists because the byte-indexed core String.startsWith
does not reduce inside the kernel. -/
def startsWithJS (s searchString : String) : Bool :=
  searchString.toList.isPrefixOf s.toList

/-- Supported-algorithm test performed by generateJwksKeyPair
(create-secret.ts lines 120 to 132): the RS and PS prefixes select the RSA
families, the ES prefix the EC family, anything else is rejected. -/
def supportedAlgorithm (algorithm : String) : Bool :=
  startsWithJS algorithm "RS" || startsWithJS algorithm "PS" ||
    startsWithJS algorithm "ES"

/-- Record assembled by generateJwksKeyPair (create-secret.ts lines 134 to
146) from fresh key material: the private key under privateKeyPem, the
public JWK under publicKeyJwk, the nanoid kid, the configured algorithm,
createdAt stamped at generation time, and no activatedAt. -/
def genRecord (keySpec : KeySpec) (now : Int) (gk : GeneratedKey) : SecretValue :=
  { privateKeyPem := some gk.privateKeyPem
    publicKeyJwk := some gk.publicKeyJwk
    kid := gk.kid
    alg := keySpec.algorithm
    createdAt := now }

/-- generateJwksKeyPair in create-secret.ts (lines 113 to 151): fails fast
for an unsupported algorithm prefix, otherwise returns the assembled
record.  The family-specific generation parameters (modulusLength, crv)
only affect the opaque cryptographic call. -/
def generateJwksKeyPair (keySpec : KeySpec) (now : Int) (gk : GeneratedKey) :
    Except StepError SecretValue :=
  if supportedAlgorithm keySpec.algorithm then .ok (genRecord keySpec now gk)
  else .error (.unsupportedAlgorithm keySpec.algorithm)

/-- Tail of createSecret after the pending candidate has been chosen
(create-secret.ts lines 80 to 110): stamp activatedAt = now onto the
candidate, write it to AWSPENDING under the step's token, generate a fresh
replacement and write it to NEXT under the derived token, then rebuild and
publish the JWKS with overrides for previous (the pre-step current), current
(the pending candidate) and next (the replacement).  A generation failure
after the AWSPENDING write propagates with that single write issued.
Passing the pre-step store to buildJwks is exact here: the overrides cover
the NEXT and AWSCURRENT reads, and the preceding writes never touch the
AWSPREVIOUS stage that the remaining read consults. -/
def createSecretFinish (cfg : EnvironmentConfig) (now : Int) (store : Store)
    (token : String) (currentSecret : Option GotSecret)
    (nextKeyData : SecretValue) (gkB : GeneratedKey) : StepOutcome :=
  let pendingSecretValue : SecretValue := { nextKeyData with activatedAt := some now }
  let pendingPut : Effect := .putSecret token ["AWSPENDING"] pendingSecretValue
  match generateJwksKeyPair cfg.keySpec now gkB with
  | .error e => { effects := [pendingPut], result := .error e }
  | .ok newNextKeyPair =>
    { effects :=
        [pendingPut,
         .putSecret ("next-key-" ++ token) ["NEXT"] newNextKeyPair,
         .putObject (buildJwks cfg now store
           { previousSecret := currentSecret.map GotSecret.secretValue
             currentSecret := some pendingSecretValue
             nextSecret := some newNextKeyPair })]
      result := .ok () }

/-- createSecret in create-secret.ts (lines 14 to 111).  Inputs beyond the
store: the clock, the step's client request token, and the key material the
up-to-two opaque generation calls would produce (gkA for the first call in
whichever branch makes one, gkB for the replacement key).  When NEXT is
absent and an activated AWSCURRENT exists, it writes a NEXT key under the
derived token next-key-(current version id), publishes a JWKS built with the
current and new-next overrides, and throws the deliberate abort error.  When
NEXT is absent otherwise (bootstrap), a fresh key becomes the pending
candidate.  When NEXT is present, it is rejected as too new if younger than
the activation grace period, otherwise promoted to pending candidate. -/
def createSecret (cfg : EnvironmentConfig) (now : Int) (store : Store)
    (token : String) (gkA gkB : GeneratedKey) : StepOutcome :=
  match store.next with
  | some nextSecret =>
    let ageInSeconds : ℚ := ((now - nextSecret.secretValue.createdAt : Int) : ℚ) / 1000
    if ageInSeconds < (cfg.minActivationGracePeriodSeconds : ℚ) then
      { effects := []
        result := .error (.nextKeyTooNew ageInSeconds cfg.minActivationGracePeriodSeconds) }
    else
      createSecretFinish cfg now store token store.current nextSecret.secretValue gkB
  | none =>
    match store.current with
    | some currentSecret =>
      if currentSecret.secretValue.activatedAt.isSome then
        match generateJwksKeyPair cfg.keySpec now gkA with
        | .error e => { effects := [], result := .error e }
        | .ok newNext =>
          { effects :=
              [.putSecret ("next-key-" ++ currentSecret.VersionId) ["NEXT"] newNext,
               .putObject (buildJwks cfg now store
                 { currentSecret := some currentSecret.secretValue
                   nextSecret := some newNext })]
            result := .error .createdNextAborting }
      else
        match generateJwksKeyPair cfg.keySpec now gkA with
        | .error e => { effects := [], result := .error e }
        | .ok keyPair =>
          createSecretFinish cfg now store token (some currentSecret) keyPair gkB
    | none =>
      match generateJwksKeyPair cfg.keySpec now gkA with
      | .error e => { effects := [], result := .error e }
      | .ok keyPair => createSecretFinish cfg now store token none keyPair gkB

/-- finishSecret in finish-secret.ts: require AWSCURRENT, require the
AWSPENDING version named by the token, issue the single atomic
UpdateSecretVersionStage moving AWSCURRENT from the old current version to
the pending version, then publish a JWKS built with the promoted record as
the current override and the displaced record as the previous override.
Passing the pre-step store to buildJwks is exact: the overrides cover the
AWSCURRENT and AWSPREVIOUS reads and the stage move never touches NEXT. -/
def finishSecret (cfg : EnvironmentConfig) (now : Int) (store : Store)
    (token : String) : StepOutcome :=
  match store.current with
  | none => { effects := [], result := .error .currentVersionNotFound }
  | some currentSecret =>
    match store.pending token with
    | none => { effects := [], result := .error .pendingVersionNotFound }
    | some pendingSecret =>
      { effects :=
          [.moveStage pendingSecret.VersionId currentSecret.VersionId,
           .putObject (buildJwks cfg now store
             { currentSecret := some pendingSecret.secretValue
               previousSecret := some currentSecret.secretValue })]
        result := .ok () }

/-- getJwksFromS3 in utils.ts (lines 159 to 184) as observed by testSecret:
an absent object (the NoSuchKey error) yields the empty key set, a present
object yields its parsed document. -/
def getJwksFromS3 (jwksObject : Option Jwks) : Jwks :=
  match jwksObject with
  | some doc => doc
  | none => { keys := [] }

/-- Message rendered by the jose library when the local JWK set resolves no
key for the verified token's header; testSecret's catch block wraps it. -/
def noApplicableKeyMessage : String := "JWKSNoMatchingKey: no applicable key found"

/-- Key selection performed by the jose createLocalJWKSet resolver during
jwtVerify in testSecret: a candidate entry must match the protected header's
kid and alg, which testSecret sets from the pending record. -/
def selectJwk (doc : Jwks) (kid alg : String) : Option JwkEntry :=
  doc.keys.find? fun e => e.kid == kid && e.alg == alg

/-- Message rendering of the TypeError the jose importPKCS8 call raises
when its pkcs8 argument is not a PKCS#8 formatted string, in particular
when the destructured privateKey property is undefined. -/
def pkcs8TypeErrorMessage : String :=
  "TypeError: \"pkcs8\" must be PKCS#8 formatted string"

/-- testSecret in test-secret.ts (lines 6 to 69): require the AWSPENDING
version named by the token, destructure privateKey, alg and kid from the
pending record, import the private key with importPKCS8 and sign a
synthetic JWT with the record's kid and alg, load the published JWKS, fail
when its key set is empty, then verify the synthetic token against it:
resolution failure is wrapped as a verification error, and a resolved entry
verifies the just-signed token (sound opaque cryptography).

The import step precedes the JWKS load.  When the record has no privateKey
property (records written by create-secret.ts store the key under
privateKeyPem instead) the jose call deterministically throws its TypeError;
when the property is a string, the opaque import is the importPKCS8
function argument, whose failure likewise propagates.  Both sit outside the
try/catch around jwtVerify, so these errors are unwrapped.  The step issues
no writes on any path. -/
def testSecret (importPKCS8 : String → String → Except String Unit)
    (store : Store) (jwksObject : Option Jwks) (token : String) :
    StepOutcome :=
  match store.pending token with
  | none => { effects := [], result := .error .awsPendingVersionNotFound }
  | some pendingSecret =>
    match pendingSecret.secretValue.privateKey with
    | none =>
      { effects := [], result := .error (.importKeyFailed pkcs8TypeErrorMessage) }
    | some privateKey =>
      match importPKCS8 privateKey pendingSecret.secretValue.alg with
      | .error m => { effects := [], result := .error (.importKeyFailed m) }
      | .ok _ =>
        let jwksDocument := getJwksFromS3 jwksObject
        if jwksDocument.keys = [] then
          { effects := [], result := .error .noKeysInJwks }
        else
          match selectJwk jwksDocument pendingSecret.secretValue.kid
              pendingSecret.secretValue.alg with
          | none =>
            { effects := [],
              result := .error (.jwtVerificationFailed noApplicableKeyMessage) }
          | some _ => { effects := [], result := .ok () }

/-- cleanupExpiredKeys in cleanup-expired-keys.ts: with no AWSCURRENT it
returns normally having done nothing; otherwise it publishes the JWKS built
with the just-read current record passed as the current override. -/
def cleanupExpiredKeys (cfg : EnvironmentConfig) (now : Int) (store : Store) :
    StepOutcome :=
  match store.current with
  | none => { effects := [], result := .ok () }
  | some currentSecret =>
    { effects :=
        [.putObject (buildJwks cfg now store
          { currentSecret := some currentSecret.secretValue })]
      result := .ok () }

/-- Raw response of one GetSecretValue client call, before the wrapper's
checks: each property may be absent. -/
structure RawGetResponse where
  SecretString : Option String := none
  VersionId : Option String := none
  VersionStages : Option (List String) := none
deriving DecidableEq

/-- Outcome of one client.send of a GetSecretValueCommand: the client threw
an error named ResourceNotFoundException, threw some other error (carried as
its message), or returned a response. -/
inductive SendOutcome where
  | notFound : SendOutcome
  | failure (message : String) : SendOutcome
  | success (response : RawGetResponse) : SendOutcome
deriving DecidableEq

/-- getSecretValue in utils.ts (lines 115 to 142).  The parse argument
stands for JSON.parse of the secret string, which either yields a value or
throws (carried as an error message, always distinct from the
ResourceNotFoundException name the catch block tests for).  A
ResourceNotFoundException from the client is translated to the null
sentinel; a response whose SecretString is absent or empty (falsy) is also
translated to null; a response with a secret string but no VersionId raises
the named error, which the catch block rethrows; any other client failure
propagates unchanged. -/
def getSecretValue (parse : String → Except String SecretValue)
    (sent : SendOutcome) : Except String (Option GotSecret) :=
  match sent with
  | .notFound => .ok none
  | .failure m => .error m
  | .success r =>
    match r.SecretString with
    | none => .ok none
    | some s =>
      if s = "" then .ok none
      else
        match r.VersionId with
        | none => .error "Secret version has no VersionId"
        | some vid =>
          match parse s with
          | .error m => .error m
          | .ok v => .ok (some { VersionId := vid, VersionStages := r.VersionStages, secretValue := v })

/-- Process environment as read by getEnvironmentConfig: each variable is
absent or a string. -/
structure Env where
  BUCKET_NAME : Option String := none
  BUCKET_PATH : Option String := none
  MIN_ACTIVATION_GRACE_PERIOD_SECONDS : Option String := none
  MAX_TOKEN_VALIDITY_DURATION_SECONDS : Option String := none
  MIN_KEY_CLEANUP_GRACE_PERIOD_SECONDS : Option String := none
  KEY_SPEC : Option String := none
deriving DecidableEq

/-- Requiredness check applied to each environment variable
(utils.ts lines 37 to 65): an absent variable and the empty string are both
falsy and raise the field-specific required message. -/
def requireEnv (name : String) (value : Option String) : Except String String :=
  match value with
  | none => .error (name ++ " environment variable is required")
  | some s =>
    if s = "" then .error (name ++ " environment variable is required")
    else .ok s

/-- Digit-prefix accumulator for the parseInt model. -/
def digitsValue (cs : List Char) : Option Nat :=
  let ds := cs.takeWhile Char.isDigit
  if ds = [] then none
  else some (ds.foldl (fun acc c => acc * 10 + (c.toNat - '0'.toNat)) 0)

/-- JavaScript parseInt with radix 10: skip leading whitespace, read an
optional sign and then the longest digit prefix, yielding NaN (modelled as
none) when no digits follow. -/
def parseIntJS (s : String) : Option Int :=
  match s.toList.dropWhile Char.isWhitespace with
  | '-' :: rest => (digitsValue rest).map fun n => -(n : Int)
  | '+' :: rest => (digitsValue rest).map fun n => (n : Int)
  | rest => (digitsValue rest).map fun n => (n : Int)

/-- getEnvironmentConfig in utils.ts (lines 26 to 113).  The jsonParse
argument stands for JSON.parse of the KEY_SPEC string (none models a
thrown parse error).  All six variables are checked for presence in
declaration order, then the three numeric variables are parsed and checked
for NaN in order, then the key spec is parsed; every failure carries its
field-specific message. -/
def getEnvironmentConfig (jsonParse : String → Option KeySpec) (env : Env) :
    Except String EnvironmentConfig :=
  match requireEnv "BUCKET_NAME" env.BUCKET_NAME with
  | .error e => .error e
  | .ok bucketName =>
  match requireEnv "BUCKET_PATH" env.BUCKET_PATH with
  | .error e => .error e
  | .ok bucketPath =>
  match requireEnv "MIN_ACTIVATION_GRACE_PERIOD_SECONDS"
      env.MIN_ACTIVATION_GRACE_PERIOD_SECONDS with
  | .error e => .error e
  | .ok minActivationString =>
  match requireEnv "MAX_TOKEN_VALIDITY_DURATION_SECONDS"
      env.MAX_TOKEN_VALIDITY_DURATION_SECONDS with
  | .error e => .error e
  | .ok maxTokenValidityString =>
  match requireEnv "MIN_KEY_CLEANUP_GRACE_PERIOD_SECONDS"
      env.MIN_KEY_CLEANUP_GRACE_PERIOD_SECONDS with
  | .error e => .error e
  | .ok minKeyCleanupString =>
  match requireEnv "KEY_SPEC" env.KEY_SPEC with
  | .error e => .error e
  | .ok keySpecString =>
  match parseIntJS minActivationString with
  | none => .error "MIN_ACTIVATION_GRACE_PERIOD_SECONDS must be a valid number"
  | some minActivationGracePeriodSeconds =>
  match parseIntJS maxTokenValidityString with
  | none => .error "MAX_TOKEN_VALIDITY_DURATION_SECONDS must be a valid number"
  | some maxTokenValidityDurationSeconds =>
  match parseIntJS minKeyCleanupString with
  | none => .error "MIN_KEY_CLEANUP_GRACE_PERIOD_SECONDS must be a valid number"
  | some minKeyCleanupGracePeriodSeconds =>
  match jsonParse keySpecString with
  | none => .error "Invalid KEY_SPEC environment variable"
  | some keySpec =>
    .ok { bucketName := bucketName
          bucketPath := bucketPath
          minActivationGracePeriodSeconds := minActivationGracePeriodSeconds
          maxTokenValidityDurationSeconds := maxTokenValidityDurationSeconds
          minKeyCleanupGracePeriodSeconds := minKeyCleanupGracePeriodSeconds
          keySpec := keySpec }

/-! Concrete sample inputs used by the witness and counterexample
theorems. -/

/-- Sample public JWK with RSA public parameters. -/
def sampleJwk : Jwk := { kty := "RSA", params := [("n", "sample-modulus"), ("e", "AQAB")] }

/-- Sample key specification selecting the RS256 algorithm. -/
def sampleKeySpec : KeySpec := { algorithm := "RS256" }

/-- Sample configuration mirroring the repository's test fixtures: one week
of activation grace, one hour of token validity, six hours of cleanup
grace. -/
def cfgA : EnvironmentConfig :=
  { bucketName := "test-bucket"
    bucketPath := "jwks.json"
    minActivationGracePeriodSeconds := 604800
    maxTokenValidityDurationSeconds := 3600
    minKeyCleanupGracePeriodSeconds := 21600
    keySpec := sampleKeySpec }

/-- Sample activated record in the utils.ts property-name generation. -/
def recActivated (kid : String) (t : Int) : SecretValue :=
  { privateKey := some "sample-private-key"
    publicJwk := some sampleJwk
    kid := kid
    alg := "RS256"
    createdAt := 0
    activatedAt := some t }

/-- Sample staged (never activated) record. -/
def recStaged (kid : String) : SecretValue :=
  { privateKey := some "sample-private-key"
    publicJwk := some sampleJwk
    kid := kid
    alg := "RS256"
    createdAt := 0 }

/-- Wraps a record as a read result with a version id. -/
def gotOf (vid : String) (v : SecretValue) : GotSecret :=
  { VersionId := vid, secretValue := v }

/-- Store for the previous-inclusion witness: an activated current key and
an activated previous key. -/
def storeC1 : Store :=
  { current := some (gotOf "cid" (recActivated "cur-kid" 0))
    previous := some (gotOf "pid" (recActivated "prev-kid" (-1))) }

/-- Store for the stage-gating witness: a never-activated current key plus a
staged NEXT key. -/
def storeC2 : Store :=
  { current := some (gotOf "cid" (recStaged "cur-kid"))
    next := some (gotOf "nid" (recStaged "next-kid")) }

/-- Sample fresh key material for the first generation call. -/
def gk1 : GeneratedKey :=
  { privateKeyPem := "sample-pem-1", publicKeyJwk := sampleJwk, kid := "gen-kid-1" }

/-- Sample fresh key material for the second generation call. -/
def gk2 : GeneratedKey :=
  { privateKeyPem := "sample-pem-2", publicKeyJwk := sampleJwk, kid := "gen-kid-2" }

/-- Store for the abort-branch witness: an activated current key and no
NEXT key. -/
def storeC3 : Store :=
  { current := some (gotOf "cid" (recActivated "cur-kid" 0)) }

/-- Store for the too-new witness: a NEXT key created at time zero. -/
def storeC4 : Store :=
  { next := some (gotOf "nid" (recStaged "next-kid")) }

/-- Store for the finish witness: current version cid and a pending version
pid under every token. -/
def storeC5 : Store :=
  { current := some (gotOf "cid" (recActivated "cur-kid" 0))
    pending := fun _ => some (gotOf "pid" (recActivated "pend-kid" 1000)) }

/-- Store with only a current version (pending reads miss). -/
def storeC5b : Store :=
  { current := some (gotOf "cid" (recActivated "cur-kid" 0)) }

/-- Empty store: every read misses. -/
def storeEmpty : Store := {}

/-- Published JWKS document holding a single entry under a kid different
from the pending record's. -/
def docOtherKid : Jwks :=
  { keys := [{ kty := some "RSA", params := [], kid := "other-kid", alg := "RS256", use := "sig" }] }

/-- Import function sample standing for a jose importPKCS8 call that
accepts its string argument. -/
def importOkA : String → String → Except String Unit := fun _ _ => .ok ()

/-- Store whose pending version under every token is a record exactly as
createSecret writes it: the private key under privateKeyPem and no
privateKey property. -/
def storeC6 : Store :=
  { pending := fun _ => some (gotOf "pid" (genRecord sampleKeySpec 0 gk1)) }

/-- Environment with every variable set except the cleanup grace period. -/
def envC9 : Env :=
  { BUCKET_NAME := some "test-bucket"
    BUCKET_PATH := some "jwks.json"
    MIN_ACTIVATION_GRACE_PERIOD_SECONDS := some "604800"
    MAX_TOKEN_VALIDITY_DURATION_SECONDS := some "3600"
    MIN_KEY_CLEANUP_GRACE_PERIOD_SECONDS := none
    KEY_SPEC := some "sample-key-spec" }

/-- Key-spec parser sample standing for JSON.parse in the counterexample and
witness instantiations. -/
def jsonParseA : String → Option KeySpec := fun _ => some sampleKeySpec

/-- Secret-string parser sample standing for JSON.parse in the
getSecretValue instantiations. -/
def parseA : String → Except String SecretValue := fun _ => .ok (recStaged "parsed-kid")

/-- Falsiness of an environment variable as tested by the loader's guards:
absent or the empty string. -/
def envBlank : Option String → Bool
  | none => true
  | some s => s == ""

/-- Environment with every variable set but a non-numeric cleanup grace
period. -/
def envC9b : Env :=
  { BUCKET_NAME := some "test-bucket"
    BUCKET_PATH := some "jwks.json"
    MIN_ACTIVATION_GRACE_PERIOD_SECONDS := some "604800"
    MAX_TOKEN_VALIDITY_DURATION_SECONDS := some "3600"
    MIN_KEY_CLEANUP_GRACE_PERIOD_SECONDS := some "soon"
    KEY_SPEC := some "sample-key-spec" }

/-- C1: for every invocation of the JWKS builder, the AWSPREVIOUS key is
included in the result if and only if its activatedAt is set and either the
current key's activatedAt is unknown (fail open) or the time elapsed since
the current key's activatedAt is less than or equal to
maxTokenValidityDurationSeconds + minKeyCleanupGracePeriodSeconds, the
boundary being inclusive.  The combined threshold is assumed nonnegative (it
is the sum of two configured durations); with a negative combined threshold
the code's falsy test on an elapsed time of exactly zero would additionally
include the previous key. -/
theorem buildJwks_previous_inclusion_iff (cfg : EnvironmentConfig) (now : Int)
    (store : Store) (opts : BuildJwksOptions)
    (h : 0 ≤ cfg.maxTokenValidityDurationSeconds + cfg.minKeyCleanupGracePeriodSeconds) :
    buildJwksPreviousKeys cfg now store opts ≠ [] ↔
      ((∃ p, getJwk opts.previousSecret store.previous = some p ∧ p.activatedAt.isSome) ∧
        ∀ t, (getJwk opts.currentSecret store.current).bind SecretValue.activatedAt = some t →
          ((now - t : Int) : ℚ) / 1000 ≤
            ((cfg.maxTokenValidityDurationSeconds + cfg.minKeyCleanupGracePeriodSeconds : Int) : ℚ)) := by
  have hthr : (0 : ℚ) ≤
      ((cfg.maxTokenValidityDurationSeconds + cfg.minKeyCleanupGracePeriodSeconds : Int) : ℚ) := by
    exact_mod_cast h
  cases hp : getJwk opts.previousSecret store.previous with
  | none => simp [buildJwksPreviousKeys, hp]
  | some p =>
    cases hpa : p.activatedAt with
    | none => simp [buildJwksPreviousKeys, hp, hpa]
    | some tp =>
      cases hc : getJwk opts.currentSecret store.current with
      | none =>
        simp [buildJwksPreviousKeys, hp, hpa, hc, previousCondition,
          currentActivatedAgoSeconds]
      | some c =>
        cases hca : c.activatedAt with
        | none =>
          simp [buildJwksPreviousKeys, hp, hpa, hc, hca, previousCondition,
            currentActivatedAgoSeconds]
        | some t =>
          simp [buildJwksPreviousKeys, hp, hpa, hc, hca, previousCondition,
            currentActivatedAgoSeconds]
          rcases eq_or_ne ((now : ℚ) - (t : ℚ)) 0 with h0 | h0
          · right
            rw [h0]
            push_cast at hthr
            simpa using hthr
          · left
            exact h0

/-- C2: for every invocation of the JWKS builder, on any store contents and
any overrides, a key record lacking activatedAt is never emitted for the
AWSCURRENT or AWSPREVIOUS positions, while a NEXT key record is included
unconditionally whenever one is present. -/
theorem buildJwks_stage_gating (cfg : EnvironmentConfig) (now : Int)
    (store : Store) (opts : BuildJwksOptions) :
    (∀ c, getJwk opts.currentSecret store.current = some c → c.activatedAt = none →
        buildJwksCurrentKeys store opts = []) ∧
    (∀ p, getJwk opts.previousSecret store.previous = some p → p.activatedAt = none →
        buildJwksPreviousKeys cfg now store opts = []) ∧
    (∀ n, getJwk opts.nextSecret store.next = some n →
        buildJwksNextKeys store opts = [addJwk n] ∧
          addJwk n ∈ (buildJwks cfg now store opts).keys) := by
  refine ⟨?_, ?_, ?_⟩
  · intro c hc hca
    simp [buildJwksCurrentKeys, hc, hca]
  · intro p hp hpa
    simp [buildJwksPreviousKeys, hp, hpa]
  · intro n hn
    constructor
    · simp [buildJwksNextKeys, hn]
    · simp [buildJwks, buildJwksNextKeys, hn]

/-- Witness for C1: at the sample configuration the combined threshold is
25200 seconds; with the current key activated exactly 25200 seconds ago the
previous key is included (inclusive boundary), and one second past the
threshold it is excluded. -/
theorem buildJwks_previous_inclusion_iff_witness :
    buildJwksPreviousKeys cfgA 25200000 storeC1 {} ≠ [] ∧
      buildJwksPreviousKeys cfgA 25201000 storeC1 {} = [] := by
  constructor
  · apply (buildJwks_previous_inclusion_iff cfgA 25200000 storeC1 {} (by decide)).mpr
    refine ⟨⟨recActivated "prev-kid" (-1), rfl, rfl⟩, ?_⟩
    intro t ht
    have ht0 : (0 : Int) = t := by
      simpa [storeC1, getJwk, gotOf, recActivated] using ht
    subst ht0
    norm_num [cfgA]
  · by_contra hne
    have hiff := (buildJwks_previous_inclusion_iff cfgA 25201000 storeC1 {} (by decide)).mp hne
    have hle := hiff.2 0 (by simp [storeC1, getJwk, gotOf, recActivated])
    norm_num [cfgA] at hle

/-- Witness for C2: with a never-activated current record nothing is emitted
for the AWSCURRENT position, and a present NEXT record appears in the built
document. -/
theorem buildJwks_stage_gating_witness :
    buildJwksCurrentKeys storeC2 {} = [] ∧
      addJwk (recStaged "next-kid") ∈ (buildJwks cfgA 0 storeC2 {}).keys := by
  refine ⟨(buildJwks_stage_gating cfgA 0 storeC2 {}).1 (recStaged "cur-kid") rfl rfl, ?_⟩
  exact ((buildJwks_stage_gating cfgA 0 storeC2 {}).2.2 (recStaged "next-kid") rfl).2

/-- C3: for every state in which no NEXT record exists but an AWSCURRENT
record with activatedAt set does, createSecret (with a supported configured
algorithm) generates a new key, performs exactly one store write, namely the
NEXT record under idempotency token next-key-(current version id),
republishes the JWKS including the new NEXT key, and then fails with the
error "Created NEXT key. Aborting rotation as requested.", without ever
writing an AWSPENDING version in this path. -/
theorem createSecret_abort_creates_next (cfg : EnvironmentConfig) (now : Int)
    (store : Store) (token : String) (gkA gkB : GeneratedKey) (cur : GotSecret)
    (hnext : store.next = none) (hcur : store.current = some cur)
    (hact : cur.secretValue.activatedAt.isSome = true)
    (halg : supportedAlgorithm cfg.keySpec.algorithm = true) :
    createSecret cfg now store token gkA gkB =
      { effects :=
          [.putSecret ("next-key-" ++ cur.VersionId) ["NEXT"]
             (genRecord cfg.keySpec now gkA),
           .putObject (buildJwks cfg now store
             { currentSecret := some cur.secretValue
               nextSecret := some (genRecord cfg.keySpec now gkA) })]
        result := .error .createdNextAborting } ∧
      ((createSecret cfg now store token gkA gkB).effects.filter
          Effect.isStoreWrite).length = 1 ∧
      addJwk (genRecord cfg.keySpec now gkA) ∈
        (buildJwks cfg now store
          { currentSecret := some cur.secretValue
            nextSecret := some (genRecord cfg.keySpec now gkA) }).keys ∧
      (∀ e ∈ (createSecret cfg now store token gkA gkB).effects,
          Effect.writesStage "AWSPENDING" e = false) ∧
      StepError.createdNextAborting.message =
        "Created NEXT key. Aborting rotation as requested." := by
  have hmain : createSecret cfg now store token gkA gkB =
      { effects :=
          [.putSecret ("next-key-" ++ cur.VersionId) ["NEXT"]
             (genRecord cfg.keySpec now gkA),
           .putObject (buildJwks cfg now store
             { currentSecret := some cur.secretValue
               nextSecret := some (genRecord cfg.keySpec now gkA) })]
        result := .error .createdNextAborting } := by
    simp [createSecret, hnext, hcur, hact, generateJwksKeyPair, halg]
  refine ⟨hmain, ?_, ?_, ?_, rfl⟩
  · rw [hmain]
    simp [Effect.isStoreWrite]
  · simp [buildJwks, buildJwksNextKeys, getJwk]
  · rw [hmain]
    intro e he
    simp only [List.mem_cons, List.not_mem_nil, or_false] at he
    rcases he with rfl | rfl
    · simp [Effect.writesStage, List.contains]
    · simp [Effect.writesStage]

/-- C4: for every state in which a NEXT record exists whose age
(now minus its createdAt, in seconds) is strictly less than
minActivationGracePeriodSeconds, createSecret fails with the
"Next key is too new" error and performs zero store writes and zero
object-store writes. -/
theorem createSecret_next_too_new (cfg : EnvironmentConfig) (now : Int)
    (store : Store) (token : String) (gkA gkB : GeneratedKey) (nx : GotSecret)
    (hnext : store.next = some nx)
    (hage : ((now - nx.secretValue.createdAt : Int) : ℚ) / 1000 <
      (cfg.minActivationGracePeriodSeconds : ℚ)) :
    createSecret cfg now store token gkA gkB =
      { effects := []
        result := .error (.nextKeyTooNew
          (((now - nx.secretValue.createdAt : Int) : ℚ) / 1000)
          cfg.minActivationGracePeriodSeconds) } := by
  simp only [createSecret, hnext]
  split
  · rfl
  · rename_i hge
    exact absurd hage hge

/-- Witness for C3: on the sample store with an activated current version
cid and no NEXT key, createSecret writes exactly the NEXT record under
token next-key-cid, publishes a document containing the generated key's
entry, and aborts. -/
theorem createSecret_abort_creates_next_witness :
    createSecret cfgA 1000 storeC3 "tok" gk1 gk2 =
      { effects :=
          [.putSecret ("next-key-" ++ "cid") ["NEXT"] (genRecord sampleKeySpec 1000 gk1),
           .putObject (buildJwks cfgA 1000 storeC3
             { currentSecret := some (recActivated "cur-kid" 0)
               nextSecret := some (genRecord sampleKeySpec 1000 gk1) })]
        result := .error .createdNextAborting } ∧
      addJwk (genRecord sampleKeySpec 1000 gk1) ∈
        (buildJwks cfgA 1000 storeC3
          { currentSecret := some (recActivated "cur-kid" 0)
            nextSecret := some (genRecord sampleKeySpec 1000 gk1) }).keys :=
  ⟨(createSecret_abort_creates_next cfgA 1000 storeC3 "tok" gk1 gk2
      (gotOf "cid" (recActivated "cur-kid" 0)) rfl rfl rfl (by decide)).1,
   (createSecret_abort_creates_next cfgA 1000 storeC3 "tok" gk1 gk2
      (gotOf "cid" (recActivated "cur-kid" 0)) rfl rfl rfl (by decide)).2.2.1⟩

/-- Witness for C4: a NEXT key created at time zero is one second old at
time 1000 and the sample grace period is 604800 seconds, so createSecret
aborts with the too-new error and no effects. -/
theorem createSecret_next_too_new_witness :
    createSecret cfgA 1000 storeC4 "tok" gk1 gk2 =
      { effects := []
        result := .error (.nextKeyTooNew
          (((1000 - (recStaged "next-kid").createdAt : Int) : ℚ) / 1000)
          cfgA.minActivationGracePeriodSeconds) } :=
  createSecret_next_too_new cfgA 1000 storeC4 "tok" gk1 gk2
    (gotOf "nid" (recStaged "next-kid")) rfl (by norm_num [recStaged, gotOf, cfgA])

/-- C5: finishSecret fails with "Current version not found" when no
AWSCURRENT exists and with "Pending version not found" when no AWSPENDING
version equal to the token exists, with no stage move in either case;
otherwise it issues exactly one atomic stage move of AWSCURRENT from the
prior current version id to the token's version id, then republishes the
JWKS with overrides current = the newly promoted record and previous = the
displaced record. -/
theorem finishSecret_spec (cfg : EnvironmentConfig) (now : Int) (store : Store)
    (token : String) :
    (store.current = none →
      finishSecret cfg now store token =
        { effects := [], result := .error .currentVersionNotFound }) ∧
    (∀ cur, store.current = some cur → store.pending token = none →
      finishSecret cfg now store token =
        { effects := [], result := .error .pendingVersionNotFound }) ∧
    (∀ cur pend, store.current = some cur → store.pending token = some pend →
      finishSecret cfg now store token =
        { effects :=
            [.moveStage pend.VersionId cur.VersionId,
             .putObject (buildJwks cfg now store
               { currentSecret := some pend.secretValue
                 previousSecret := some cur.secretValue })]
          result := .ok () }) ∧
    StepError.currentVersionNotFound.message = "Current version not found" ∧
    StepError.pendingVersionNotFound.message = "Pending version not found" := by
  refine ⟨?_, ?_, ?_, rfl, rfl⟩
  · intro hcur
    simp [finishSecret, hcur]
  · intro cur hcur hpend
    simp [finishSecret, hcur, hpend]
  · intro cur pend hcur hpend
    simp [finishSecret, hcur, hpend]

/-- Counterexample to C6: at a pending record exactly as createSecret
writes it (private key under privateKeyPem, no privateKey property) and an
absent published JWKS object (empty key set), testSecret does not fail with
"No keys found in JWKS document" as the claim requires: the importPKCS8
call on the undefined privateKey property throws its unwrapped TypeError
first, before the JWKS document is loaded. -/
theorem testSecret_missing_private_key_counterexample :
    testSecret importOkA storeC6 none "tok" =
      { effects := [], result := .error (.importKeyFailed pkcs8TypeErrorMessage) } ∧
    testSecret importOkA storeC6 none "tok" ≠
      { effects := [], result := .error .noKeysInJwks } :=
  ⟨rfl, by decide⟩

/-- C6 (amended): testSecret fails with "AWSPENDING version not found" when
no AWSPENDING version equal to the token exists (before any key import);
when the pending record has no privateKey property (as every record written
by createSecret, which stores the key under privateKeyPem) it fails with
the unwrapped importPKCS8 TypeError before the JWKS document is even
loaded, whatever the published JWKS holds; when the record carries a
privateKey string whose import succeeds, it fails with "No keys found in
JWKS document" on an empty published key set (including when the JWKS
object is absent) and with the wrapped verification error when the pending
key's kid resolves no entry of the published JWKS; and it issues no store
writes and no object-store writes on any path, in particular on success. -/
theorem testSecret_spec (importPKCS8 : String → String → Except String Unit)
    (store : Store) (jwksObject : Option Jwks) (token : String) :
    (store.pending token = none →
      testSecret importPKCS8 store jwksObject token =
        { effects := [], result := .error .awsPendingVersionNotFound }) ∧
    (∀ pend, store.pending token = some pend →
      pend.secretValue.privateKey = none →
      testSecret importPKCS8 store jwksObject token =
        { effects := [], result := .error (.importKeyFailed pkcs8TypeErrorMessage) }) ∧
    (∀ pend pem, store.pending token = some pend →
      pend.secretValue.privateKey = some pem →
      importPKCS8 pem pend.secretValue.alg = .ok () →
      (getJwksFromS3 jwksObject).keys = [] →
      testSecret importPKCS8 store jwksObject token =
        { effects := [], result := .error .noKeysInJwks }) ∧
    (getJwksFromS3 none).keys = [] ∧
    (∀ pend pem, store.pending token = some pend →
      pend.secretValue.privateKey = some pem →
      importPKCS8 pem pend.secretValue.alg = .ok () →
      (getJwksFromS3 jwksObject).keys ≠ [] →
      (∀ e ∈ (getJwksFromS3 jwksObject).keys, e.kid ≠ pend.secretValue.kid) →
      testSecret importPKCS8 store jwksObject token =
        { effects := [],
          result := .error (.jwtVerificationFailed noApplicableKeyMessage) }) ∧
    (testSecret importPKCS8 store jwksObject token).effects = [] ∧
    StepError.awsPendingVersionNotFound.message = "AWSPENDING version not found" ∧
    StepError.noKeysInJwks.message = "No keys found in JWKS document" := by
  refine ⟨?_, ?_, ?_, rfl, ?_, ?_, rfl, rfl⟩
  · intro hpend
    simp [testSecret, hpend]
  · intro pend hpend hpk
    simp [testSecret, hpend, hpk]
  · intro pend pem hpend hpk himp hkeys
    simp [testSecret, hpend, hpk, himp, hkeys]
  · intro pend pem hpend hpk himp hkeys hnokid
    have hfind : selectJwk (getJwksFromS3 jwksObject) pend.secretValue.kid
        pend.secretValue.alg = none := by
      apply List.find?_eq_none.mpr
      intro e he
      have hne := hnokid e he
      simp [hne]
    simp [testSecret, hpend, hpk, himp, hkeys, hfind]
  · rcases hpend : store.pending token with _ | pend
    · simp [testSecret, hpend]
    · rcases hpk : pend.secretValue.privateKey with _ | pem
      · simp [testSecret, hpend, hpk]
      · rcases himp : importPKCS8 pem pend.secretValue.alg with m | u
        · simp [testSecret, hpend, hpk, himp]
        · by_cases hkeys : (getJwksFromS3 jwksObject).keys = []
          · simp [testSecret, hpend, hpk, himp, hkeys]
          · rcases hfind : selectJwk (getJwksFromS3 jwksObject) pend.secretValue.kid
                pend.secretValue.alg with _ | e
            · simp [testSecret, hpend, hpk, himp, hkeys, hfind]
            · simp [testSecret, hpend, hpk, himp, hkeys, hfind]

/-- C8: cleanupExpiredKeys with no AWSCURRENT record returns without error
and performs zero store writes and zero object-store writes; when AWSCURRENT
exists it publishes exactly the JWKS rebuilt from live store state with no
overrides (the current override it passes is the value just read from the
live AWSCURRENT stage, so the published document equals the override-free
build). -/
theorem cleanupExpiredKeys_spec (cfg : EnvironmentConfig) (now : Int)
    (store : Store) :
    (store.current = none →
      cleanupExpiredKeys cfg now store = { effects := [], result := .ok () }) ∧
    (∀ cur, store.current = some cur →
      cleanupExpiredKeys cfg now store =
        { effects := [.putObject (buildJwks cfg now store {})], result := .ok () }) := by
  constructor
  · intro hcur
    simp [cleanupExpiredKeys, hcur]
  · intro cur hcur
    have hbuild : buildJwks cfg now store { currentSecret := some cur.secretValue } =
        buildJwks cfg now store {} := by
      simp [buildJwks, buildJwksNextKeys, buildJwksCurrentKeys,
        buildJwksPreviousKeys, getJwk, hcur]
    simp [cleanupExpiredKeys, hcur, hbuild]

/-- Witness for C5: the sample store with current version cid and pending
version pid yields exactly the stage move from cid to pid followed by the
publish, and the empty store yields the current-not-found failure. -/
theorem finishSecret_spec_witness :
    finishSecret cfgA 0 storeEmpty "tok" =
      { effects := [], result := .error .currentVersionNotFound } ∧
    finishSecret cfgA 0 storeC5b "tok" =
      { effects := [], result := .error .pendingVersionNotFound } ∧
    finishSecret cfgA 0 storeC5 "tok" =
      { effects :=
          [.moveStage "pid" "cid",
           .putObject (buildJwks cfgA 0 storeC5
             { currentSecret := some (recActivated "pend-kid" 1000)
               previousSecret := some (recActivated "cur-kid" 0) })]
        result := .ok () } :=
  ⟨(finishSecret_spec cfgA 0 storeEmpty "tok").1 rfl,
   (finishSecret_spec cfgA 0 storeC5b "tok").2.1 (gotOf "cid" (recActivated "cur-kid" 0)) rfl rfl,
   (finishSecret_spec cfgA 0 storeC5 "tok").2.2.1 (gotOf "cid" (recActivated "cur-kid" 0))
     (gotOf "pid" (recActivated "pend-kid" 1000)) rfl rfl⟩

/-- Witness for the amended C6: a missing pending version fails with the
not-found error; a pending record without a privateKey property fails with
the unwrapped import TypeError even though the published key set is empty;
with an importable private key, an empty published document fails with the
no-keys error and a document holding only a foreign kid fails with the
wrapped no-applicable-key error. -/
theorem testSecret_spec_witness :
    testSecret importOkA storeEmpty (some docOtherKid) "tok" =
      { effects := [], result := .error .awsPendingVersionNotFound } ∧
    testSecret importOkA storeC6 none "tok" =
      { effects := [], result := .error (.importKeyFailed pkcs8TypeErrorMessage) } ∧
    testSecret importOkA storeC5 none "tok" =
      { effects := [], result := .error .noKeysInJwks } ∧
    testSecret importOkA storeC5 (some docOtherKid) "tok" =
      { effects := [],
        result := .error (.jwtVerificationFailed noApplicableKeyMessage) } :=
  ⟨(testSecret_spec importOkA storeEmpty (some docOtherKid) "tok").1 rfl,
   (testSecret_spec importOkA storeC6 none "tok").2.1
     (gotOf "pid" (genRecord sampleKeySpec 0 gk1)) rfl rfl,
   (testSecret_spec importOkA storeC5 none "tok").2.2.1
     (gotOf "pid" (recActivated "pend-kid" 1000)) "sample-private-key" rfl rfl rfl rfl,
   (testSecret_spec importOkA storeC5 (some docOtherKid) "tok").2.2.2.2.1
     (gotOf "pid" (recActivated "pend-kid" 1000)) "sample-private-key" rfl rfl rfl
     (by decide) (by decide)⟩

/-- Witness for C8: the empty store yields a silent no-op, and the sample
store with a current record yields exactly one object write carrying the
override-free build. -/
theorem cleanupExpiredKeys_spec_witness :
    cleanupExpiredKeys cfgA 0 storeEmpty = { effects := [], result := .ok () } ∧
    cleanupExpiredKeys cfgA 0 storeC5b =
      { effects := [.putObject (buildJwks cfgA 0 storeC5b {})], result := .ok () } :=
  ⟨(cleanupExpiredKeys_spec cfgA 0 storeEmpty).1 rfl,
   (cleanupExpiredKeys_spec cfgA 0 storeC5b).2 (gotOf "cid" (recActivated "cur-kid" 0)) rfl⟩

/-- C7: a key entry emitted for a record written by createSecret carries
none of the record's public key material.  generateJwksKeyPair stores the
public JWK under the publicKeyJwk property, but addJwk spreads the absent
publicJwk property, so the published entry holds only kid, alg and use and
drops the record's kty and algorithm-specific public fields, contradicting
the bit-exact published-document shape. -/
theorem addJwk_drops_generated_public_key :
    generateJwksKeyPair sampleKeySpec 0 gk1 = .ok (genRecord sampleKeySpec 0 gk1) ∧
    (genRecord sampleKeySpec 0 gk1).publicKeyJwk = some sampleJwk ∧
    sampleJwk.kty = "RSA" ∧
    sampleJwk.params = [("n", "sample-modulus"), ("e", "AQAB")] ∧
    (genRecord sampleKeySpec 0 gk1).publicJwk = none ∧
    addJwk (genRecord sampleKeySpec 0 gk1) =
      { kty := none, params := [], kid := "gen-kid-1", alg := "RS256", use := "sig" } :=
  ⟨rfl, rfl, rfl, rfl, rfl, rfl⟩

/-- Counterexample to C9: with every other variable present and well-formed
but the cleanup grace period unset, configuration loading does not succeed
with a default; it fails with the field's required message. -/
theorem getEnvironmentConfig_missing_cleanup_fails :
    getEnvironmentConfig jsonParseA envC9 =
      .error "MIN_KEY_CLEANUP_GRACE_PERIOD_SECONDS environment variable is required" := rfl

/-- Helper: a blank (absent or empty) variable makes its requiredness check
fail with the field-specific message. -/
theorem requireEnv_error_of_blank (name : String) (v : Option String)
    (h : envBlank v = true) :
    requireEnv name v = .error (name ++ " environment variable is required") := by
  cases v with
  | none => rfl
  | some s =>
    simp [envBlank] at h
    simp [requireEnv, h]

/-- Helper: a non-blank variable passes its requiredness check with its
string. -/
theorem requireEnv_exists_ok (name : String) (v : Option String)
    (h : envBlank v = false) :
    ∃ s, v = some s ∧ requireEnv name v = .ok s := by
  cases v with
  | none => simp [envBlank] at h
  | some s =>
    refine ⟨s, rfl, ?_⟩
    simp [envBlank] at h
    simp [requireEnv, h]

/-- Helper: a named non-blank variable passes its requiredness check. -/
theorem requireEnv_ok (name : String) (v : Option String) (s : String)
    (hv : v = some s) (h : envBlank v = false) :
    requireEnv name v = .ok s := by
  obtain ⟨s', hv', hr⟩ := requireEnv_exists_ok name v h
  rw [hv] at hv'
  rw [hr, Option.some.inj hv']

/-- C9 (amended): configuration loading treats the minimum key cleanup grace
period as required exactly like every other field; each variable missing or
empty fails fast with its field-specific required message in declaration
order, and each malformed numeric or key-spec value fails fast with its
field-specific validity message.  Any documented default for the cleanup
grace period is applied upstream of the loader, not by it. -/
theorem getEnvironmentConfig_field_errors (jsonParse : String → Option KeySpec)
    (env : Env) :
    (envBlank env.BUCKET_NAME = true →
      getEnvironmentConfig jsonParse env =
        .error "BUCKET_NAME environment variable is required") ∧
    (envBlank env.BUCKET_NAME = false → envBlank env.BUCKET_PATH = true →
      getEnvironmentConfig jsonParse env =
        .error "BUCKET_PATH environment variable is required") ∧
    (envBlank env.BUCKET_NAME = false → envBlank env.BUCKET_PATH = false →
      envBlank env.MIN_ACTIVATION_GRACE_PERIOD_SECONDS = true →
      getEnvironmentConfig jsonParse env =
        .error "MIN_ACTIVATION_GRACE_PERIOD_SECONDS environment variable is required") ∧
    (envBlank env.BUCKET_NAME = false → envBlank env.BUCKET_PATH = false →
      envBlank env.MIN_ACTIVATION_GRACE_PERIOD_SECONDS = false →
      envBlank env.MAX_TOKEN_VALIDITY_DURATION_SECONDS = true →
      getEnvironmentConfig jsonParse env =
        .error "MAX_TOKEN_VALIDITY_DURATION_SECONDS environment variable is required") ∧
    (envBlank env.BUCKET_NAME = false → envBlank env.BUCKET_PATH = false →
      envBlank env.MIN_ACTIVATION_GRACE_PERIOD_SECONDS = false →
      envBlank env.MAX_TOKEN_VALIDITY_DURATION_SECONDS = false →
      envBlank env.MIN_KEY_CLEANUP_GRACE_PERIOD_SECONDS = true →
      getEnvironmentConfig jsonParse env =
        .error "MIN_KEY_CLEANUP_GRACE_PERIOD_SECONDS environment variable is required") ∧
    (envBlank env.BUCKET_NAME = false → envBlank env.BUCKET_PATH = false →
      envBlank env.MIN_ACTIVATION_GRACE_PERIOD_SECONDS = false →
      envBlank env.MAX_TOKEN_VALIDITY_DURATION_SECONDS = false →
      envBlank env.MIN_KEY_CLEANUP_GRACE_PERIOD_SECONDS = false →
      envBlank env.KEY_SPEC = true →
      getEnvironmentConfig jsonParse env =
        .error "KEY_SPEC environment variable is required") ∧
    (∀ s3, envBlank env.BUCKET_NAME = false → envBlank env.BUCKET_PATH = false →
      env.MIN_ACTIVATION_GRACE_PERIOD_SECONDS = some s3 →
      envBlank env.MIN_ACTIVATION_GRACE_PERIOD_SECONDS = false →
      envBlank env.MAX_TOKEN_VALIDITY_DURATION_SECONDS = false →
      envBlank env.MIN_KEY_CLEANUP_GRACE_PERIOD_SECONDS = false →
      envBlank env.KEY_SPEC = false →
      parseIntJS s3 = none →
      getEnvironmentConfig jsonParse env =
        .error "MIN_ACTIVATION_GRACE_PERIOD_SECONDS must be a valid number") ∧
    (∀ s3 n3 s4, envBlank env.BUCKET_NAME = false → envBlank env.BUCKET_PATH = false →
      env.MIN_ACTIVATION_GRACE_PERIOD_SECONDS = some s3 →
      envBlank env.MIN_ACTIVATION_GRACE_PERIOD_SECONDS = false →
      env.MAX_TOKEN_VALIDITY_DURATION_SECONDS = some s4 →
      envBlank env.MAX_TOKEN_VALIDITY_DURATION_SECONDS = false →
      envBlank env.MIN_KEY_CLEANUP_GRACE_PERIOD_SECONDS = false →
      envBlank env.KEY_SPEC = false →
      parseIntJS s3 = some n3 → parseIntJS s4 = none →
      getEnvironmentConfig jsonParse env =
        .error "MAX_TOKEN_VALIDITY_DURATION_SECONDS must be a valid number") ∧
    (∀ s3 n3 s4 n4 s5, envBlank env.BUCKET_NAME = false → envBlank env.BUCKET_PATH = false →
      env.MIN_ACTIVATION_GRACE_PERIOD_SECONDS = some s3 →
      envBlank env.MIN_ACTIVATION_GRACE_PERIOD_SECONDS = false →
      env.MAX_TOKEN_VALIDITY_DURATION_SECONDS = some s4 →
      envBlank env.MAX_TOKEN_VALIDITY_DURATION_SECONDS = false →
      env.MIN_KEY_CLEANUP_GRACE_PERIOD_SECONDS = some s5 →
      envBlank env.MIN_KEY_CLEANUP_GRACE_PERIOD_SECONDS = false →
      envBlank env.KEY_SPEC = false →
      parseIntJS s3 = some n3 → parseIntJS s4 = some n4 → parseIntJS s5 = none →
      getEnvironmentConfig jsonParse env =
        .error "MIN_KEY_CLEANUP_GRACE_PERIOD_SECONDS must be a valid number") ∧
    (∀ s3 n3 s4 n4 s5 n5 s6, envBlank env.BUCKET_NAME = false →
      envBlank env.BUCKET_PATH = false →
      env.MIN_ACTIVATION_GRACE_PERIOD_SECONDS = some s3 →
      envBlank env.MIN_ACTIVATION_GRACE_PERIOD_SECONDS = false →
      env.MAX_TOKEN_VALIDITY_DURATION_SECONDS = some s4 →
      envBlank env.MAX_TOKEN_VALIDITY_DURATION_SECONDS = false →
      env.MIN_KEY_CLEANUP_GRACE_PERIOD_SECONDS = some s5 →
      envBlank env.MIN_KEY_CLEANUP_GRACE_PERIOD_SECONDS = false →
      env.KEY_SPEC = some s6 → envBlank env.KEY_SPEC = false →
      parseIntJS s3 = some n3 → parseIntJS s4 = some n4 → parseIntJS s5 = some n5 →
      jsonParse s6 = none →
      getEnvironmentConfig jsonParse env =
        .error "Invalid KEY_SPEC environment variable") := by
  refine ⟨?_, ?_, ?_, ?_, ?_, ?_, ?_, ?_, ?_, ?_⟩
  · intro h1
    simp [getEnvironmentConfig, requireEnv_error_of_blank _ _ h1]
  · intro h1 h2
    obtain ⟨s1, _, hr1⟩ := requireEnv_exists_ok "BUCKET_NAME" _ h1
    simp [getEnvironmentConfig, hr1, requireEnv_error_of_blank _ _ h2]
  · intro h1 h2 h3
    obtain ⟨s1, _, hr1⟩ := requireEnv_exists_ok "BUCKET_NAME" _ h1
    obtain ⟨s2, _, hr2⟩ := requireEnv_exists_ok "BUCKET_PATH" _ h2
    simp [getEnvironmentConfig, hr1, hr2, requireEnv_error_of_blank _ _ h3]
  · intro h1 h2 h3 h4
    obtain ⟨s1, _, hr1⟩ := requireEnv_exists_ok "BUCKET_NAME" _ h1
    obtain ⟨s2, _, hr2⟩ := requireEnv_exists_ok "BUCKET_PATH" _ h2
    obtain ⟨s3, _, hr3⟩ := requireEnv_exists_ok "MIN_ACTIVATION_GRACE_PERIOD_SECONDS" _ h3
    simp [getEnvironmentConfig, hr1, hr2, hr3, requireEnv_error_of_blank _ _ h4]
  · intro h1 h2 h3 h4 h5
    obtain ⟨s1, _, hr1⟩ := requireEnv_exists_ok "BUCKET_NAME" _ h1
    obtain ⟨s2, _, hr2⟩ := requireEnv_exists_ok "BUCKET_PATH" _ h2
    obtain ⟨s3, _, hr3⟩ := requireEnv_exists_ok "MIN_ACTIVATION_GRACE_PERIOD_SECONDS" _ h3
    obtain ⟨s4, _, hr4⟩ := requireEnv_exists_ok "MAX_TOKEN_VALIDITY_DURATION_SECONDS" _ h4
    simp [getEnvironmentConfig, hr1, hr2, hr3, hr4, requireEnv_error_of_blank _ _ h5]
  · intro h1 h2 h3 h4 h5 h6
    obtain ⟨s1, _, hr1⟩ := requireEnv_exists_ok "BUCKET_NAME" _ h1
    obtain ⟨s2, _, hr2⟩ := requireEnv_exists_ok "BUCKET_PATH" _ h2
    obtain ⟨s3, _, hr3⟩ := requireEnv_exists_ok "MIN_ACTIVATION_GRACE_PERIOD_SECONDS" _ h3
    obtain ⟨s4, _, hr4⟩ := requireEnv_exists_ok "MAX_TOKEN_VALIDITY_DURATION_SECONDS" _ h4
    obtain ⟨s5, _, hr5⟩ := requireEnv_exists_ok "MIN_KEY_CLEANUP_GRACE_PERIOD_SECONDS" _ h5
    simp [getEnvironmentConfig, hr1, hr2, hr3, hr4, hr5,
      requireEnv_error_of_blank _ _ h6]
  · intro s3 h1 h2 hv3 h3 h4 h5 h6 hp3
    obtain ⟨s1, _, hr1⟩ := requireEnv_exists_ok "BUCKET_NAME" _ h1
    obtain ⟨s2, _, hr2⟩ := requireEnv_exists_ok "BUCKET_PATH" _ h2
    obtain ⟨s4, _, hr4⟩ := requireEnv_exists_ok "MAX_TOKEN_VALIDITY_DURATION_SECONDS" _ h4
    obtain ⟨s5, _, hr5⟩ := requireEnv_exists_ok "MIN_KEY_CLEANUP_GRACE_PERIOD_SECONDS" _ h5
    obtain ⟨s6, _, hr6⟩ := requireEnv_exists_ok "KEY_SPEC" _ h6
    simp [getEnvironmentConfig, hr1, hr2,
      requireEnv_ok "MIN_ACTIVATION_GRACE_PERIOD_SECONDS" _ _ hv3 h3,
      hr4, hr5, hr6, hp3]
  · intro s3 n3 s4 h1 h2 hv3 h3 hv4 h4 h5 h6 hp3 hp4
    obtain ⟨s1, _, hr1⟩ := requireEnv_exists_ok "BUCKET_NAME" _ h1
    obtain ⟨s2, _, hr2⟩ := requireEnv_exists_ok "BUCKET_PATH" _ h2
    obtain ⟨s5, _, hr5⟩ := requireEnv_exists_ok "MIN_KEY_CLEANUP_GRACE_PERIOD_SECONDS" _ h5
    obtain ⟨s6, _, hr6⟩ := requireEnv_exists_ok "KEY_SPEC" _ h6
    simp [getEnvironmentConfig, hr1, hr2,
      requireEnv_ok "MIN_ACTIVATION_GRACE_PERIOD_SECONDS" _ _ hv3 h3,
      requireEnv_ok "MAX_TOKEN_VALIDITY_DURATION_SECONDS" _ _ hv4 h4,
      hr5, hr6, hp3, hp4]
  · intro s3 n3 s4 n4 s5 h1 h2 hv3 h3 hv4 h4 hv5 h5 h6 hp3 hp4 hp5
    obtain ⟨s1, _, hr1⟩ := requireEnv_exists_ok "BUCKET_NAME" _ h1
    obtain ⟨s2, _, hr2⟩ := requireEnv_exists_ok "BUCKET_PATH" _ h2
    obtain ⟨s6, _, hr6⟩ := requireEnv_exists_ok "KEY_SPEC" _ h6
    simp [getEnvironmentConfig, hr1, hr2,
      requireEnv_ok "MIN_ACTIVATION_GRACE_PERIOD_SECONDS" _ _ hv3 h3,
      requireEnv_ok "MAX_TOKEN_VALIDITY_DURATION_SECONDS" _ _ hv4 h4,
      requireEnv_ok "MIN_KEY_CLEANUP_GRACE_PERIOD_SECONDS" _ _ hv5 h5,
      hr6, hp3, hp4, hp5]
  · intro s3 n3 s4 n4 s5 n5 s6 h1 h2 hv3 h3 hv4 h4 hv5 h5 hv6 h6 hp3 hp4 hp5 hjson
    obtain ⟨s1, _, hr1⟩ := requireEnv_exists_ok "BUCKET_NAME" _ h1
    obtain ⟨s2, _, hr2⟩ := requireEnv_exists_ok "BUCKET_PATH" _ h2
    simp [getEnvironmentConfig, hr1, hr2,
      requireEnv_ok "MIN_ACTIVATION_GRACE_PERIOD_SECONDS" _ _ hv3 h3,
      requireEnv_ok "MAX_TOKEN_VALIDITY_DURATION_SECONDS" _ _ hv4 h4,
      requireEnv_ok "MIN_KEY_CLEANUP_GRACE_PERIOD_SECONDS" _ _ hv5 h5,
      requireEnv_ok "KEY_SPEC" _ _ hv6 h6, hp3, hp4, hp5, hjson]

/-- Witness for the amended C9: the cleanup grace period being the only
blank variable triggers its required message, and a non-numeric value
triggers its validity message. -/
theorem getEnvironmentConfig_field_errors_witness :
    getEnvironmentConfig jsonParseA envC9 =
      .error "MIN_KEY_CLEANUP_GRACE_PERIOD_SECONDS environment variable is required" ∧
    getEnvironmentConfig jsonParseA envC9b =
      .error "MIN_KEY_CLEANUP_GRACE_PERIOD_SECONDS must be a valid number" :=
  ⟨(getEnvironmentConfig_field_errors jsonParseA envC9).2.2.2.2.1
      rfl rfl rfl rfl rfl,
   (getEnvironmentConfig_field_errors jsonParseA envC9b).2.2.2.2.2.2.2.2.1
      "604800" 604800 "3600" 3600 "soon" rfl rfl rfl rfl rfl rfl rfl rfl rfl
      (by decide) (by decide) (by decide)⟩

/-- C10: getSecretValue returns the absent sentinel exactly when the client
reported not-found or returned a version whose secret string is missing or
empty; any other client failure propagates as an error, and a version with
a secret string but no version id raises the named error. -/
theorem getSecretValue_absent_iff (parse : String → Except String SecretValue)
    (sent : SendOutcome) :
    (getSecretValue parse sent = .ok none ↔
      sent = .notFound ∨
        ∃ r, sent = .success r ∧
          (r.SecretString = none ∨ r.SecretString = some "")) ∧
    (∀ m, sent = .failure m → getSecretValue parse sent = .error m) ∧
    (∀ r s, sent = .success r → r.SecretString = some s → s ≠ "" →
      r.VersionId = none →
      getSecretValue parse sent = .error "Secret version has no VersionId") := by
  refine ⟨?_, ?_, ?_⟩
  · cases sent with
    | notFound => simp [getSecretValue]
    | failure m => simp [getSecretValue]
    | success r =>
      cases hs : r.SecretString with
      | none => simp [getSecretValue, hs]
      | some s =>
        by_cases hse : s = ""
        · subst hse
          simp [getSecretValue, hs]
        · cases hv : r.VersionId with
          | none => simp [getSecretValue, hs, hse, hv]
          | some vid =>
            cases hp : parse s with
            | error m => simp [getSecretValue, hs, hse, hv, hp]
            | ok v => simp [getSecretValue, hs, hse, hv, hp]
  · intro m hm
    subst hm
    rfl
  · intro r s hr hs hse hv
    subst hr
    simp [getSecretValue, hs, hse, hv]

/-- Witness for C10: a not-found client outcome and an empty secret string
both yield the absent sentinel, a backend failure propagates, and a version
with a secret string but no version id raises the named error. -/
theorem getSecretValue_absent_iff_witness :
    getSecretValue parseA .notFound = .ok none ∧
    getSecretValue parseA (.success { SecretString := some "" }) = .ok none ∧
    getSecretValue parseA (.failure "backend unavailable") =
      .error "backend unavailable" ∧
    getSecretValue parseA (.success { SecretString := some "{}" }) =
      .error "Secret version has no VersionId" :=
  ⟨(getSecretValue_absent_iff parseA .notFound).1.mpr (Or.inl rfl),
   (getSecretValue_absent_iff parseA _).1.mpr (Or.inr ⟨_, rfl, Or.inr rfl⟩),
   (getSecretValue_absent_iff parseA _).2.1 "backend unavailable" rfl,
   (getSecretValue_absent_iff parseA _).2.2 _ "{}" rfl rfl (by decide) rfl⟩

end JwksRotation
